import Mathlib

/-!
Shallow embedding of `src/lib/reflection/reflect.ts` from the nexus
repository.

The module runs a "reflection" pass over a user application, either on
the main thread (to enumerate plugins) or in a forked subprocess (to
generate typegen artifacts), and relays the outcome as a tagged
success/failure result.

Modelling choices:
* A JavaScript `Promise` executor that calls `resolve` from several event
  handlers is modelled by folding the handlers over an explicit list of
  child-process events; the promise's value is the FIRST `some` produced
  (later `resolve` calls are no-ops in JavaScript), and `none` means the
  promise never resolves.
* An `async` function that throws is modelled as returning a `rejected`
  outcome, matching JavaScript semantics where the throw becomes a
  promise rejection observed as an exception by an awaiting caller.
* `process.env` and environment objects are association lists where a
  later binding shadows an earlier one, matching JavaScript object
  spread; `envLookup` reads with that shadowing.
* Modules of the repository that are imported by `reflect.ts` but absent
  from the provided sources (`./stage`, `../layout`, `../../runtime/*`,
  and the external `serialize-error` package) are modelled minimally and
  marked `Modelled from the spec:` in their doc comments.
-/

namespace Nexus

/-- Modelled from the spec: a plugin discovered by loading the user's
application code (the `Plugin` type lives in `../plugin`, absent from
the provided sources); only its identity matters here. -/
structure Plugin where
  name : String
deriving DecidableEq, Repr

/-- A JavaScript `Error` value, carrying its message. -/
structure Error where
  message : String
deriving DecidableEq, Repr

/-- A serialized error object as produced by the external
`serialize-error` package. -/
structure ErrorObject where
  name : String
  message : String
deriving DecidableEq, Repr

/-- Modelled from the external `serialize-error` package:
`deserializeError` turns a serialized error object back into an `Error`. -/
def deserializeError (e : ErrorObject) : Error :=
  { message := e.message }

/-- The inter-process message union from `reflect.ts` lines 13-23:
`'success-plugin'` carrying plugins, `'success-typegen'` with no
payload, and `'error'` carrying a serialized error. -/
inductive Message where
  | successPlugin (plugins : List Plugin)
  | successTypegen
  | error (serializedError : ErrorObject)
deriving DecidableEq, Repr

/-- The union `ReflectionResultPlugins | ReflectionResultArtifactGeneration`
from `reflect.ts` lines 25-27, which collapses to three shapes:
`{ success: true, plugins }`, `{ success: true }`, and
`{ success: false, error }`. -/
inductive ReflectionResult where
  | successPlugins (plugins : List Plugin)
  | successTypegen
  | failure (error : Error)
deriving DecidableEq, Repr

/-- Modelled from the spec: the serializable part of a layout
(`Layout.data` in `../layout`, absent from the provided sources);
`json` is its JSON serialization. -/
structure LayoutData where
  json : String
deriving DecidableEq, Repr

/-- Modelled from the spec: the layout handed to `reflect`, with the
two fields `reflect.ts` reads: `projectRoot` and `data`. -/
structure Layout where
  projectRoot : String
  data : LayoutData
deriving DecidableEq, Repr

/-- Modelled from the spec: `JSON.stringify` applied to a layout's
`data` field. -/
def jsonStringify (d : LayoutData) : String :=
  d.json

/-- Modelled from the spec: `getReflectionStageEnv` from `./stage`
(absent from the provided sources) yields the environment variables
marking the current reflection stage. -/
def getReflectionStageEnv (stage : String) : List (String × String) :=
  [("NEXUS_REFLECTION_STAGE", stage)]

/-- Modelled from the spec: the global reflection-stage state mutated by
`setReflectionStage` and `removeReflectionStage` from `./stage`. -/
structure ReflectionStageState where
  stage : Option String
deriving DecidableEq, Repr

/-- Modelled from the spec: `setReflectionStage` records the given stage. -/
def setReflectionStage (s : String) (_st : ReflectionStageState) : ReflectionStageState :=
  { stage := some s }

/-- Modelled from the spec: `removeReflectionStage` clears the stage. -/
def removeReflectionStage (_st : ReflectionStageState) : ReflectionStageState :=
  { stage := none }

/-- The `stdio` mode passed to `fork`: `'inherit'` when `DEBUG` is set,
`'pipe'` otherwise. -/
inductive Stdio where
  | inherit
  | pipe
deriving DecidableEq, Repr

/-- The options object passed to `fork` in `reflect.ts` lines 83-91. -/
structure ForkOptions where
  cwd : String
  stdio : Stdio
  env : List (String × String)
deriving DecidableEq, Repr

/-- Reads an environment association list with JavaScript object-spread
shadowing: the LAST binding of a key wins. -/
def envLookup (env : List (String × String)) (k : String) : Option String :=
  (env.reverse.find? (fun kv => kv.1 = k)).map (fun kv => kv.2)

/-- The `fork` options built in `runTypegenReflectionAsSubProcess`
(`reflect.ts` lines 83-91): `cwd` is `layout.projectRoot`, `stdio` is
`'inherit'` when `DEBUG` is set and `'pipe'` otherwise, and `env` is the
parent environment extended with `NEXUS_REFLECTION_LAYOUT` bound to
`JSON.stringify(layout.data)` and the `'typegen'` reflection-stage
variables. -/
def typegenForkOptions (debug : Bool) (parentEnv : List (String × String))
    (layout : Layout) : ForkOptions :=
  { cwd := layout.projectRoot
    stdio := if debug then Stdio.inherit else Stdio.pipe
    env := parentEnv
      ++ ("NEXUS_REFLECTION_LAYOUT", jsonStringify layout.data)
        :: getReflectionStageEnv "typegen" }

/-- An event observed on the forked child process: a structured message,
a spawn error, data on stderr, or process exit with a code. -/
inductive CPEvent where
  | message (m : Message)
  | error (err : Error)
  | stderrData (data : String)
  | exit (code : Int)
deriving DecidableEq, Repr

/-- The error built in the `exit` handler of
`runTypegenReflectionAsSubProcess` (`reflect.ts` lines 116-121). -/
def runnerFailedError (code : Int) : Error :=
  { message := "\n        Runner failed with exit code \"" ++ toString code ++ "\".\n      " }

/-- One child-process event through the four handlers registered in
`runTypegenReflectionAsSubProcess` (`reflect.ts` lines 93-123):
`some r` when the handler calls `resolve r`, `none` when it does not.
The stderr handler exists only when `DEBUG` is unset (`stdio` is
`'pipe'`, so `cp.stderr` is non-null); with `DEBUG` set, stderr is
inherited and no handler runs. -/
def handleTypegenEvent (debug : Bool) : CPEvent → Option ReflectionResult
  | CPEvent.message m =>
    match m with
    | Message.successTypegen => some ReflectionResult.successTypegen
    | Message.error e => some (ReflectionResult.failure (deserializeError e))
    | Message.successPlugin _ => none
  | CPEvent.error err => some (ReflectionResult.failure err)
  | CPEvent.stderrData d =>
    if debug then none else some (ReflectionResult.failure { message := d })
  | CPEvent.exit code =>
    if code ≠ 0 then some (ReflectionResult.failure (runnerFailedError code)) else none

/-- The promise returned by `runTypegenReflectionAsSubProcess`
(`reflect.ts` lines 81-125), as a function of the `DEBUG` flag and the
sequence of events the child process produces: the promise's value is
the first resolution any handler performs, and `none` when no handler
ever resolves. -/
def runTypegenReflectionAsSubProcess (debug : Bool) (events : List CPEvent) :
    Option ReflectionResult :=
  events.findSome? (handleTypegenEvent debug)

/-- The function `runPluginsReflectionOnMainThread` (`reflect.ts` lines
60-79). The application startup (`appRunner.start()`, whose code is not
in the provided sources) is abstracted as its outcome `startResult`, and
the plugins the app recorded in its private state as `appPlugins`. The
stage state threads explicitly: it is set to `'plugin'` before the try,
and removed only on the success path, the `catch` returning the failure
without touching it. -/
def runPluginsReflectionOnMainThread (startResult : Except Error Unit)
    (appPlugins : List Plugin) (st : ReflectionStageState) :
    ReflectionResult × ReflectionStageState :=
  let st1 := setReflectionStage "plugin" st
  match startResult with
  | Except.ok _ =>
      (ReflectionResult.successPlugins appPlugins, removeReflectionStage st1)
  | Except.error e => (ReflectionResult.failure e, st1)

/-- The options object of `reflect`'s implementation signature
(`reflect.ts` line 42): `usedPlugins?: true; artifacts?: true;
onMainThread?: boolean`, each field possibly absent. -/
structure ReflectOpts where
  usedPlugins : Option Bool := none
  artifacts : Option Bool := none
  onMainThread : Option Bool := none
deriving DecidableEq, Repr

/-- JavaScript truthiness of an optional boolean field. -/
def truthy (o : Option Bool) : Bool :=
  o.getD false

/-- The ambient state `reflect` runs in: the `DEBUG` flag, the events
the forked child would produce, the outcome of the app runner's startup,
the plugins the app records, and the reflection-stage state. -/
structure World where
  debug : Bool
  events : List CPEvent
  startResult : Except Error Unit
  appPlugins : List Plugin
  stage : ReflectionStageState

/-- The observable outcome of the promise returned by `reflect`:
resolved with a result, rejected with an error (an `async` throw), or
never settled. -/
inductive ReflectOutcome where
  | resolved (r : ReflectionResult)
  | rejected (e : Error)
  | pending
deriving DecidableEq, Repr

/-- Converts a possibly-unresolved promise value to an outcome. -/
def promiseOutcome : Option ReflectionResult → ReflectOutcome
  | some r => ReflectOutcome.resolved r
  | none => ReflectOutcome.pending

/-- The error thrown by `reflect` when plugin reflection off the main
thread is requested (`reflect.ts` line 50). -/
def notImplementedError : Error :=
  { message := "Not implemented. Reflection on plugins needs to be done on the main process for now." }

/-- The function `reflect` (`reflect.ts` lines 40-54): with truthy
`artifacts` it dispatches to the subprocess typegen run; with
`usedPlugins === true` and `onMainThread === false` it throws (the
promise rejects); otherwise it runs plugin reflection on the main
thread. Returns the promise outcome together with the final
reflection-stage state. -/
def reflect (w : World) (_layout : Layout) (opts : ReflectOpts) :
    ReflectOutcome × ReflectionStageState :=
  if truthy opts.artifacts then
    (promiseOutcome (runTypegenReflectionAsSubProcess w.debug w.events), w.stage)
  else if opts.usedPlugins = some true ∧ opts.onMainThread = some false then
    (ReflectOutcome.rejected notImplementedError, w.stage)
  else
    let p := runPluginsReflectionOnMainThread w.startResult w.appPlugins w.stage
    (ReflectOutcome.resolved p.1, p.2)

end Nexus

namespace Nexus

/-! Theorems settling the claims. -/

/-- Concrete world used by closed counterexamples and witnesses. -/
def sampleWorld : World :=
  { debug := false
    events := []
    startResult := Except.ok ()
    appPlugins := []
    stage := { stage := none } }

/-- Concrete layout used by closed counterexamples and witnesses. -/
def sampleLayout : Layout :=
  { projectRoot := "/home/user/project", data := { json := "null" } }

/-- C1: under the precondition that the subprocess's first event is its
one terminal message, the promise resolves to the typegen success result
when that message has type `'success-typegen'`, and to the failure
carrying the deserialized error when it has type `'error'`, whatever
events (such as the exit) follow. -/
theorem C1_terminal_message (debug : Bool) (rest : List CPEvent) (e : ErrorObject) :
    runTypegenReflectionAsSubProcess debug (CPEvent.message Message.successTypegen :: rest)
        = some ReflectionResult.successTypegen
    ∧ runTypegenReflectionAsSubProcess debug (CPEvent.message (Message.error e) :: rest)
        = some (ReflectionResult.failure (deserializeError e)) := by
  constructor <;> rfl

/-- C2 counterexample: at `opts` with `usedPlugins = true`,
`onMainThread = false` and `artifacts` absent, the promise returned by
`reflect` is rejected (the `async` function throws), not resolved with a
tagged result, refuting the claim that `reflect` never throws to the
caller. -/
theorem C2_counterexample :
    (reflect sampleWorld sampleLayout
        { usedPlugins := some true, artifacts := none, onMainThread := some false }).1
      = ReflectOutcome.rejected notImplementedError
    ∧ ¬ ∃ r, (reflect sampleWorld sampleLayout
        { usedPlugins := some true, artifacts := none, onMainThread := some false }).1
      = ReflectOutcome.resolved r := by
  refine ⟨rfl, ?_⟩
  rintro ⟨r, h⟩
  simp [reflect, truthy, sampleWorld] at h

/-- C2 amended: for every layout and every options value other than the
combination `usedPlugins === true` with `onMainThread === false` and
falsy `artifacts`, the promise returned by `reflect` never rejects: any
value it settles with is a tagged `ReflectionResult`. -/
theorem C2_no_rejection (w : World) (layout : Layout) (opts : ReflectOpts)
    (h : ¬ (truthy opts.artifacts = false ∧ opts.usedPlugins = some true
        ∧ opts.onMainThread = some false)) :
    ∀ e : Error, (reflect w layout opts).1 ≠ ReflectOutcome.rejected e := by
  intro e
  unfold reflect
  by_cases ha : truthy opts.artifacts
  · simp [ha, promiseOutcome]
    cases runTypegenReflectionAsSubProcess w.debug w.events <;> simp [promiseOutcome]
  · have hnot : ¬ (opts.usedPlugins = some true ∧ opts.onMainThread = some false) := by
      intro hc
      exact h ⟨by simpa using ha, hc.1, hc.2⟩
    simp [ha, hnot]

/-- C2 witness: the amended theorem applied at a concrete world, layout
and options value satisfying the side condition. -/
theorem C2_no_rejection_witness :
    ¬ (truthy (ReflectOpts.mk (some true) none (some true)).artifacts = false
        ∧ (ReflectOpts.mk (some true) none (some true)).usedPlugins = some true
        ∧ (ReflectOpts.mk (some true) none (some true)).onMainThread = some false)
    ∧ ∀ e : Error, (reflect sampleWorld sampleLayout
        (ReflectOpts.mk (some true) none (some true))).1 ≠ ReflectOutcome.rejected e :=
  ⟨by decide,
    C2_no_rejection sampleWorld sampleLayout (ReflectOpts.mk (some true) none (some true))
      (by decide)⟩

/-- C3: with `opts.artifacts = true`, `reflect` dispatches to the
subprocess typegen run whatever the other option fields hold, and leaves
the reflection-stage state untouched. -/
theorem C3_artifacts_dispatch (w : World) (layout : Layout) (up omt : Option Bool) :
    (reflect w layout { usedPlugins := up, artifacts := some true, onMainThread := omt }).1
        = promiseOutcome (runTypegenReflectionAsSubProcess w.debug w.events)
    ∧ (reflect w layout { usedPlugins := up, artifacts := some true, onMainThread := omt }).2
        = w.stage := by
  constructor <;> rfl

/-- C4: with `usedPlugins = true`, `onMainThread = true` and `artifacts`
absent, `reflect` runs plugin reflection on the main thread, and when
the app startup succeeds it resolves with the plugins recorded in the
app's private state. -/
theorem C4_main_thread (debug : Bool) (events : List CPEvent) (sr : Except Error Unit)
    (plugins : List Plugin) (st : ReflectionStageState) (layout : Layout) :
    reflect (World.mk debug events sr plugins st) layout
        { usedPlugins := some true, artifacts := none, onMainThread := some true }
      = (ReflectOutcome.resolved (runPluginsReflectionOnMainThread sr plugins st).1,
          (runPluginsReflectionOnMainThread sr plugins st).2)
    ∧ (reflect (World.mk debug events (Except.ok ()) plugins st) layout
        { usedPlugins := some true, artifacts := none, onMainThread := some true }).1
      = ReflectOutcome.resolved (ReflectionResult.successPlugins plugins) := by
  constructor <;> rfl

/-- C5: an exit event with a nonzero code, arriving before any other
resolving event, settles the promise with a failure whose error message
names that exit code; an exit with code 0 resolves nothing by itself
(the run continues as if the event had not occurred, and with no further
events the promise stays unresolved). -/
theorem C5_exit_code (debug : Bool) (code : Int) (rest : List CPEvent) :
    runTypegenReflectionAsSubProcess debug (CPEvent.exit code :: rest)
        = (if code ≠ 0 then some (ReflectionResult.failure (runnerFailedError code))
            else runTypegenReflectionAsSubProcess debug rest)
    ∧ runTypegenReflectionAsSubProcess debug [CPEvent.exit 0] = none
    ∧ (runnerFailedError code).message
        = "\n        Runner failed with exit code \"" ++ toString code ++ "\".\n      " := by
  refine ⟨?_, rfl, rfl⟩
  by_cases h : code = 0
  · subst h
    simp [runTypegenReflectionAsSubProcess, List.findSome?, handleTypegenEvent]
  · simp [runTypegenReflectionAsSubProcess, List.findSome?, handleTypegenEvent, h]

end Nexus

namespace Nexus

/-- Appending one binding at the back of an environment shadows earlier
bindings of the same key under `envLookup`. -/
theorem envLookup_snoc (A : List (String × String)) (kv : String × String) (k : String) :
    envLookup (A ++ [kv]) k = if kv.1 = k then some kv.2 else envLookup A k := by
  by_cases h : kv.1 = k
  · simp [envLookup, h]
  · simp [envLookup, h]

/-- C6: the fork options use `layout.projectRoot` as working directory,
and the child environment is the parent's environment extended (with
object-spread shadowing) by `NEXUS_REFLECTION_LAYOUT` bound to the JSON
serialization of `layout.data` and by the `'typegen'` reflection-stage
variables: looking up `NEXUS_REFLECTION_LAYOUT` yields the
serialization, and any key bound by neither extension reads as in the
parent environment. -/
theorem C6_fork_config (debug : Bool) (parentEnv : List (String × String)) (layout : Layout) :
    (typegenForkOptions debug parentEnv layout).cwd = layout.projectRoot
    ∧ (typegenForkOptions debug parentEnv layout).env
        = parentEnv ++ ("NEXUS_REFLECTION_LAYOUT", jsonStringify layout.data)
            :: getReflectionStageEnv "typegen"
    ∧ envLookup (typegenForkOptions debug parentEnv layout).env "NEXUS_REFLECTION_LAYOUT"
        = some (jsonStringify layout.data)
    ∧ ∀ k, k ≠ "NEXUS_REFLECTION_LAYOUT" → k ≠ "NEXUS_REFLECTION_STAGE" →
        envLookup (typegenForkOptions debug parentEnv layout).env k = envLookup parentEnv k := by
  have henv : (typegenForkOptions debug parentEnv layout).env
      = (parentEnv ++ [("NEXUS_REFLECTION_LAYOUT", jsonStringify layout.data)])
          ++ [("NEXUS_REFLECTION_STAGE", "typegen")] := by
    simp [typegenForkOptions, getReflectionStageEnv]
  refine ⟨rfl, rfl, ?_, ?_⟩
  · rw [henv, envLookup_snoc, envLookup_snoc]
    simp
  · intro k hk1 hk2
    rw [henv, envLookup_snoc, envLookup_snoc]
    simp [Ne.symm hk1, Ne.symm hk2]

/-- C6 witness: the fork-config theorem applied at a concrete parent
environment, with the general-key conjunct instantiated at `PATH`. -/
theorem C6_fork_config_witness :
    ("PATH" : String) ≠ "NEXUS_REFLECTION_LAYOUT"
    ∧ ("PATH" : String) ≠ "NEXUS_REFLECTION_STAGE"
    ∧ envLookup (typegenForkOptions false [("PATH", "/usr/bin")] sampleLayout).env "PATH"
        = envLookup [("PATH", "/usr/bin")] "PATH" :=
  ⟨by decide, by decide,
    (C6_fork_config false [("PATH", "/usr/bin")] sampleLayout).2.2.2 "PATH"
      (by decide) (by decide)⟩

/-- C7: the message protocol admits exactly three shapes: every value of
the `Message` union is `'success-plugin'` with a list of plugins,
`'success-typegen'` with no payload, or `'error'` with a serialized
error object. -/
theorem C7_message_shapes (m : Message) :
    (∃ plugins, m = Message.successPlugin plugins)
      ∨ m = Message.successTypegen
      ∨ ∃ e, m = Message.error e := by
  cases m <;> simp

/-- C8: when the app runner's startup throws, plugin reflection on the
main thread returns the failure result while the reflection-stage state
is exactly the state `setReflectionStage "plugin"` produced — still set
to `'plugin'`, since `removeReflectionStage` runs only on the success
path. -/
theorem C8_stage_kept_on_error (e : Error) (plugins : List Plugin) (st : ReflectionStageState) :
    (runPluginsReflectionOnMainThread (Except.error e) plugins st).1
        = ReflectionResult.failure e
    ∧ (runPluginsReflectionOnMainThread (Except.error e) plugins st).2
        = setReflectionStage "plugin" st
    ∧ ((runPluginsReflectionOnMainThread (Except.error e) plugins st).2).stage
        = some "plugin" := by
  exact ⟨rfl, rfl, rfl⟩

/-- C9: with `DEBUG` unset, data on the subprocess's stderr stream
resolves the promise with a failure built from that data, whatever
events follow it — including a later success message or a clean exit. -/
theorem C9_stderr_resolves (d : String) (rest : List CPEvent) :
    runTypegenReflectionAsSubProcess false (CPEvent.stderrData d :: rest)
        = some (ReflectionResult.failure (Error.mk d)) := by
  rfl

/-- C10: a run whose only events are one `'success-plugin'` message and
a clean exit with code 0 never resolves the promise: the message handler
silently ignores the `'success-plugin'` shape and the exit handler
resolves only on nonzero codes. -/
theorem C10_success_plugin_ignored (debug : Bool) (plugins : List Plugin) :
    runTypegenReflectionAsSubProcess debug
        [CPEvent.message (Message.successPlugin plugins), CPEvent.exit 0] = none := by
  rfl

end Nexus
